import Mathlib

/-!
Verification of `src/xlsx_reader/excel_processor.py` (payment-terms import).

The Python module has four pieces: a row validator (`read_payment_terms`),
a QBXML batch-request builder (`create_payment_terms_batch_qbxml`), a session
client with response reconciliation (`save_payment_terms_to_quickbooks`,
`connect_to_quickbooks`), and an orchestrator (`process_payment_terms`).

The shallow embedding below translates each piece to a Lean function.
External I/O (openpyxl workbook loading, the QuickBooks COM service,
`xml.etree.ElementTree` parsing) is modelled by explicit inputs: the row
validator takes the list of (name cell, days cell) pairs that
`ws.iter_rows(min_row=2, values_only=True)` would yield, and the session
client takes a `QBEnv` record describing the outcome of each external call
(connect, ProcessRequest, EndSession, CloseConnection) together with the raw
response string and its parse result.
-/

namespace ExcelProcessor

/-- `PaymentTerm` dataclass (excel_processor.py lines 16-21): a name and a
discount-days count.  `discount_days` is an `Int` because every constructor
site stores the result of Python `int(...)`. -/
structure PaymentTerm where
  name : String
  discount_days : Int
deriving DecidableEq, Repr

/-! ### Python primitives used by the module

`str.strip()`, `int(...)`, `float(...)` and `xml.sax.saxutils.escape` are
library routines; they are modelled here on the value domain the module
actually feeds them (strings, ints, `None`). -/

/-- The six ASCII whitespace characters stripped by Python `str.strip()`. -/
def isPySpace (c : Char) : Bool :=
  c = ' ' || c = '\t' || c = '\n' || c = '\r' || c = '\x0b' || c = '\x0c'

/-- Python `str.strip()`: remove leading and trailing whitespace. -/
def pyStrip (s : String) : String :=
  ⟨((s.toList.dropWhile isPySpace).reverse.dropWhile isPySpace).reverse⟩

/-- Value of a nonempty digit list, most significant first. -/
def digitsVal (l : List Char) : Nat :=
  l.foldl (fun a c => a * 10 + (c.toNat - 48)) 0

/-- Parse a nonempty run of decimal digits. -/
def digitsToNat (l : List Char) : Option Nat :=
  if !l.isEmpty && l.all Char.isDigit then some (digitsVal l) else none

/-- Digits with an optional leading sign, as Python `int(str)` accepts
(modelled on the sign-and-digits subset; no underscores or radix prefixes,
which never occur in this module's data). -/
def parseSignedDigits (l : List Char) : Option Int :=
  match l with
  | '+' :: rest => (digitsToNat rest).map Int.ofNat
  | '-' :: rest => (digitsToNat rest).map (fun n => -(Int.ofNat n))
  | _ => (digitsToNat l).map Int.ofNat

/-- Python `int(s)` for a string `s`: strip whitespace, then sign and digits;
`none` models the `ValueError` raised otherwise. -/
def pyIntString (s : String) : Option Int :=
  parseSignedDigits (pyStrip s).toList

/-- Unsigned decimal literal with an optional fractional part
(`30`, `30.0`, `30.`, `.5`); returns the integer part, i.e. the value
truncated toward zero.  `none` models `ValueError` from `float(s)`. -/
def parseFloatCore (cs : List Char) : Option Nat :=
  let ip := cs.takeWhile (fun c => c != '.')
  let rest := cs.dropWhile (fun c => c != '.')
  match rest with
  | [] => digitsToNat ip
  | _ :: fp =>
    if ip.all Char.isDigit && fp.all Char.isDigit && (!ip.isEmpty || !fp.isEmpty) then
      some (digitsVal ip)
    else none

/-- Python `int(float(s))` for a string `s`: parse a decimal literal and
truncate toward zero (modelled on the finite-literal subset: no exponent,
`inf` or `nan`, which never occur in this module's data). -/
def pyFloatTruncString (s : String) : Option Int :=
  match (pyStrip s).toList with
  | '+' :: rest => (parseFloatCore rest).map Int.ofNat
  | '-' :: rest => (parseFloatCore rest).map (fun n => -(Int.ofNat n))
  | l => (parseFloatCore l).map Int.ofNat

/-- `xml.sax.saxutils.escape` replaces `&` by `&amp;`, then `>` by `&gt;`,
then `<` by `&lt;` (and, with no `entities` argument, nothing else — in
particular quotes are left alone).  Since no replacement string contains a
character replaced by a later pass, the three sequential `str.replace`
passes act independently on the original characters, i.e. as one
character-by-character map. -/
def escapeChar (c : Char) : String :=
  if c = '&' then "&amp;"
  else if c = '<' then "&lt;"
  else if c = '>' then "&gt;"
  else String.singleton c

/-- `xml.sax.saxutils.escape(data)` with default entities. -/
def escape (s : String) : String :=
  String.join (s.toList.map escapeChar)

/-! ### Row validator: `read_payment_terms` (lines 24-92)

Workbook loading and the `payment_terms` sheet lookup are external openpyxl
calls (their failures — missing file, missing sheet — propagate unmodelled);
the embedding starts from the cell rows the sheet iterator yields.  A cell
value is `None`, an integer, or a string. -/

/-- A spreadsheet cell as this module consumes it. -/
inductive Cell where
  | none
  | int (n : Int)
  | str (s : String)
deriving DecidableEq, Repr

/-- Python `str(cell)` for the cell values modelled here. -/
def cellStr : Cell → String
  | Cell.none => "None"
  | Cell.int n => toString n
  | Cell.str s => s

/-- Python `int(cell)`: identity on ints, literal parse on strings,
`TypeError` (`none`) on `None`. -/
def cellInt : Cell → Option Int
  | Cell.none => Option.none
  | Cell.int n => some n
  | Cell.str s => pyIntString s

/-- Python `int(float(cell))`: identity on ints (already integral),
decimal-literal parse with truncation on strings, `TypeError` on `None`. -/
def cellFloatTrunc : Cell → Option Int
  | Cell.none => Option.none
  | Cell.int n => some n
  | Cell.str s => pyFloatTruncString s

/-- The exception `read_payment_terms` raises from its row loop (line 87):
`TypeError(f"Invalid discount_days for term '{name}': {days_cell!r}")`. -/
inductive ReadError where
  | invalidDays (name : String) (daysCell : Cell)
deriving DecidableEq, Repr

/-- The row loop of `read_payment_terms` (lines 61-92) over the
`(name cell, days cell)` pairs of the `payment_terms` sheet from row 2 on:
skip the row when the name cell is `None` or blank after stripping, or when
the days cell is `None`; convert the days cell with `int(...)`, falling back
to `int(float(...))`; when both conversions fail the code raises `TypeError`
(the `Except.error` case).  Rows that survive become `PaymentTerm`s in
sheet order. -/
def read_payment_terms : List (Cell × Cell) → Except ReadError (List PaymentTerm)
  | [] => Except.ok []
  | (nameCell, daysCell) :: rest =>
    if nameCell = Cell.none then read_payment_terms rest
    else
      let name := pyStrip (cellStr nameCell)
      if name = "" then read_payment_terms rest
      else if daysCell = Cell.none then read_payment_terms rest
      else
        match cellInt daysCell with
        | some d => (read_payment_terms rest).map (fun l => PaymentTerm.mk name d :: l)
        | Option.none =>
          match cellFloatTrunc daysCell with
          | some d => (read_payment_terms rest).map (fun l => PaymentTerm.mk name d :: l)
          | Option.none => Except.error (ReadError.invalidDays name daysCell)

/-! ### Batch builder: `create_payment_terms_batch_qbxml` (lines 124-227) -/

/-- One `StandardTermsAddRq` fragment (lines 199-206; Python concatenates the
adjacent literals at compile time).  `<StdDueDays >` carries the trailing
space on both the opening and the closing tag, as in the source. -/
def termFragment (safeName : String) (discountDays : Int) : String :=
  "<StandardTermsAddRq><StandardTermsAdd><Name>" ++ safeName
    ++ "</Name><StdDueDays >" ++ toString discountDays
    ++ "</StdDueDays ></StandardTermsAdd></StandardTermsAddRq>"

/-- The loop of lines 173-207: strip the name, skip the term when the
stripped name is empty, coerce `discount_days` with `int(...)` (the identity
here, `discount_days` being an `Int` already, so the `TypeError` branch of
lines 185-193 is unreachable), escape the name, and emit one fragment. -/
def buildRequests : List PaymentTerm → List String
  | [] => []
  | t :: rest =>
    let name := pyStrip t.name
    if name = "" then buildRequests rest
    else termFragment (escape name) t.discount_days :: buildRequests rest

/-- `chr(10).join(requests)` (line 209). -/
def joinNl : List String → String
  | [] => ""
  | [a] => a
  | a :: rest => a ++ "\n" ++ joinNl rest

/-- Lines 211-220 of the envelope literal, up to and including the newline
after the `QBXMLMsgsRq` opening tag. -/
def envelopeHeader : String :=
  "<?xml version=\"1.0\" encoding=\"utf-8\"?>\n<?qbxml version=\"13.0\"?>\n<QBXML>\n<QBXMLMsgsRq onError=\"continueOnError\">\n"

/-- Lines 222-224 of the envelope literal. -/
def envelopeFooter : String := "</QBXMLMsgsRq>\n</QBXML>"

/-- `create_payment_terms_batch_qbxml` (lines 124-227): join the per-term
fragments with newlines and wrap them in the QBXML envelope; the newline
after `inner` is emitted only when `inner` is nonempty
(`chr(10) if inner else ""`, line 221). -/
def create_payment_terms_batch_qbxml (payment_terms : List PaymentTerm) : String :=
  let inner := joinNl (buildRequests payment_terms)
  envelopeHeader ++ inner ++ (if inner = "" then "" else "\n") ++ envelopeFooter

/-! ### Mutation tracking for the builder

The loop body of lines 173-207 assigns only the local variables `name`,
`discount_days`, `safe_name` and `rq`; it never assigns to `term.name` or
`term.discount_days`.  To make that a provable statement rather than a
typing accident, `buildIter` is the state-passing translation of one loop
iteration: it returns the fragment this iteration appends (if any) together
with the entity as it stands after the iteration. -/

/-- One iteration of the builder loop, returning (emitted fragment, entity
after the iteration).  Every local of the Python body is a `let`; no field
of `term` is written, so the entity after the iteration is `term` itself. -/
def buildIter (term : PaymentTerm) : Option String × PaymentTerm :=
  let name := pyStrip term.name
  if name = "" then (Option.none, term)
  else
    let discountDays := term.discount_days
    let safeName := escape name
    (some (termFragment safeName discountDays), term)

/-- State-passing variant of `create_payment_terms_batch_qbxml`: the built
document together with the entity list as it stands after the loop. -/
def create_payment_terms_batch_qbxml_tracked (payment_terms : List PaymentTerm) :
    String × List PaymentTerm :=
  let steps := payment_terms.map buildIter
  let inner := joinNl (steps.filterMap Prod.fst)
  (envelopeHeader ++ inner ++ (if inner = "" then "" else "\n") ++ envelopeFooter,
   steps.map Prod.snd)

/-! ### Session client and reconciler: `save_payment_terms_to_quickbooks`
(lines 230-338) with `connect_to_quickbooks` (lines 95-121)

External calls are modelled by a `QBEnv` record giving each call's outcome:
`connect` stands for the `Dispatch` / `OpenConnection` / `BeginSession`
sequence of `connect_to_quickbooks` (which re-raises any failure after
printing, line 119-121), `submit` for `ProcessRequest`, and `endSession` /
`closeConnection` for the two cleanup calls.  `Except.error e` carries the
Python exception's message.  A returned response is its raw string plus the
result of `ET.fromstring` + `findall(".//StandardTermsAddRs")`: `Option.none`
when parsing raises, otherwise the list of per-item results, each carrying
its `statusCode` attribute, its `StatusMessage` text and its `Name` text
(`Option.none` for a missing attribute/element/text). -/

/-- One `StandardTermsAddRs` element of a parsed response. -/
structure RsItem where
  statusCode : Option String
  statusMessage : Option String
  retName : Option String
deriving DecidableEq, Repr

/-- A `ProcessRequest` response: the raw string and its parse result. -/
structure ResponseDoc where
  raw : String
  parsed : Option (List RsItem)
deriving DecidableEq, Repr

/-- Outcomes of the external QuickBooks calls for one `save` run. -/
structure QBEnv where
  connect : Except String Unit
  submit : Except String ResponseDoc
  endSession : Except String Unit
  closeConnection : Except String Unit
deriving Repr

/-- Result of `save_payment_terms_to_quickbooks`: a normal return of the
created-names list, or the `RuntimeError` raised at line 325. -/
inductive SaveOutcome where
  | ok (created : List String)
  | runtimeError (msg : String)
deriving DecidableEq, Repr

/-- Which externally visible steps a `save` run performed, and the warning
lines it printed. -/
structure SaveTrace where
  documentBuilt : Bool
  connectAttempted : Bool
  submitCalled : Bool
  endSessionCalled : Bool
  closeConnectionCalled : Bool
  warnings : List String
deriving DecidableEq, Repr

/-- Python `str(x)` of an optional string, as an f-string interpolates it:
the string itself, or `None`. -/
def pyShow : Option String → String
  | some s => s
  | Option.none => "None"

/-- The warning printed at line 320 for a status other than `"0"` and
`"3100"`. -/
def warnLine (status msg : Option String) : String :=
  "QuickBooks returned error for a term (status " ++ pyShow status ++ "): " ++ pyShow msg

/-- The reconciliation loop over `root.findall(".//StandardTermsAddRs")`
(lines 302-321), returning the created names and the printed warnings, each
in response order.  Status `"0"`: append the `Name` text when the element
exists and its text is truthy (non-`None`, nonempty), else skip silently.
Status `"3100"`: skip silently.  Anything else (including a missing
`statusCode` attribute): warn and skip. -/
def reconcile : List RsItem → List String × List String
  | [] => ([], [])
  | rs :: rest =>
    let r := reconcile rest
    if rs.statusCode = some "0" then
      match rs.retName with
      | some n => if n = "" then r else (n :: r.1, r.2)
      | Option.none => r
    else if rs.statusCode = some "3100" then r
    else (r.1, warnLine rs.statusCode rs.statusMessage :: r.2)

/-- `pat` occurs as a contiguous substring, Python's `in` on strings. -/
def listContains (pat : List Char) : List Char → Bool
  | [] => pat.isEmpty
  | c :: rest => pat.isPrefixOf (c :: rest) || listContains pat rest

/-- The fallback of lines 290-299 when `ET.fromstring` raises: if the raw
response contains `statusCode="0"`, collect the text between each `<Name>`
and the following `</Name>` (Python `part.split("</Name>", 1)[0]`), else
return no names; either way, return normally. -/
def fallbackExtract (response : String) : List String :=
  if listContains ("statusCode=\"0\"").toList response.toList then
    ((response.splitOn "<Name>").drop 1).map
      (fun part => (part.splitOn "</Name>").headD "")
  else []

/-- The `finally` block of lines 326-338, entered with the original outcome
pending.  When both `qb_app` and `session` were acquired, `EndSession` and
then `CloseConnection` are each invoked inside their own bare
`try/except: pass`, so both are always attempted and neither's exception
escapes the block; when acquisition failed both handles are `None` and the
guard skips both calls.  Returns (EndSession attempted, CloseConnection
attempted, exception escaping the block — always `none`, because every
statement in the block is wrapped in `except: pass`). -/
def cleanupBlock (acquired : Bool) (endSession closeConnection : Except String Unit) :
    Bool × Bool × Option String :=
  if acquired then
    let _swallowedEnd : Option String :=
      match endSession with | Except.ok _ => Option.none | Except.error e => some e
    let _swallowedClose : Option String :=
      match closeConnection with | Except.ok _ => Option.none | Except.error e => some e
    (true, true, Option.none)
  else (false, false, Option.none)

/-- Python `try/finally`: an exception escaping the `finally` block replaces
the body's outcome; otherwise the body's outcome stands. -/
def withFinally (body : SaveOutcome) (cleanupEscape : Option String) : SaveOutcome :=
  match cleanupEscape with
  | some e => SaveOutcome.runtimeError e
  | Option.none => body

/-- `save_payment_terms_to_quickbooks` (lines 230-338).  Empty input returns
`[]` at line 274, before the document is built and before any external call.
Otherwise the document is built (line 276), the connection is acquired, the
request submitted, and the response handled: parse failure takes the
fallback of lines 290-299 (a normal return), a parsed response is
reconciled.  Any exception inside the `try` (connection or submission) is
wrapped at line 325 as `RuntimeError(f"Failed to connect to QuickBooks:
{exc}")`; the `finally` block then runs. -/
def save_payment_terms_to_quickbooks (env : QBEnv) (payment_terms : List PaymentTerm) :
    SaveOutcome × SaveTrace :=
  if payment_terms.isEmpty then
    (SaveOutcome.ok [], ⟨false, false, false, false, false, []⟩)
  else
    let _qbxml := create_payment_terms_batch_qbxml payment_terms
    match env.connect with
    | Except.error e =>
      let c := cleanupBlock false env.endSession env.closeConnection
      (withFinally (SaveOutcome.runtimeError ("Failed to connect to QuickBooks: " ++ e)) c.2.2,
       ⟨true, false, false, c.1, c.2.1, []⟩)
    | Except.ok _ =>
      let bodyResult : SaveOutcome × List String :=
        match env.submit with
        | Except.error e =>
          (SaveOutcome.runtimeError ("Failed to connect to QuickBooks: " ++ e), [])
        | Except.ok resp =>
          match resp.parsed with
          | Option.none => (SaveOutcome.ok (fallbackExtract resp.raw), [])
          | some items =>
            let r := reconcile items
            (SaveOutcome.ok r.1, r.2)
      let c := cleanupBlock true env.endSession env.closeConnection
      (withFinally bodyResult.1 c.2.2,
       ⟨true, true, true, c.1, c.2.1, bodyResult.2⟩)

/-! ### Orchestrator: `process_payment_terms` (lines 341-389) -/

/-- Result of `process_payment_terms`: the created names, or one of the
exceptions that escape it — the `TypeError` propagating out of
`read_payment_terms`, the `ValueError` of line 382, or the `RuntimeError`
of the save step.  (File/sheet errors from openpyxl are external and not
modelled.) -/
inductive ProcOutcome where
  | ok (created : List String)
  | readTypeError (e : ReadError)
  | valueError (msg : String)
  | runtimeError (msg : String)
deriving DecidableEq, Repr

/-- `process_payment_terms` (lines 341-389): read the rows, raise
`ValueError("No payment terms found in the 'payment_terms' sheet.")` when no
terms validated (line 382) — before any QuickBooks interaction — and
otherwise hand the terms to `save_payment_terms_to_quickbooks`.  The trace
reports what the save step did; on the early exits it is the all-`false`
trace (no document built, no connection, no submission, no cleanup). -/
def process_payment_terms (env : QBEnv) (rows : List (Cell × Cell)) :
    ProcOutcome × SaveTrace :=
  match read_payment_terms rows with
  | Except.error e => (ProcOutcome.readTypeError e, ⟨false, false, false, false, false, []⟩)
  | Except.ok payment_terms =>
    if payment_terms.isEmpty then
      (ProcOutcome.valueError "No payment terms found in the 'payment_terms' sheet.",
       ⟨false, false, false, false, false, []⟩)
    else
      match save_payment_terms_to_quickbooks env payment_terms with
      | (SaveOutcome.ok created, tr) => (ProcOutcome.ok created, tr)
      | (SaveOutcome.runtimeError m, tr) => (ProcOutcome.runtimeError m, tr)

/-! ### Spec-side description of the batch document (for claim C1)

Modelled from the spec: "one serialized document containing one request
fragment per term, in input order, wrapped in a single envelope that
instructs the receiving protocol to continue processing remaining items
even if one item fails", with the due-days element emitted as
`<StdDueDays >...</StdDueDays >` byte for byte. -/

/-- Spec-side request fragment for one term: the escaped name in a `Name`
element and the due-days element with the trailing space before the closing
delimiter of both its opening and closing tag. -/
def specFragment (t : PaymentTerm) : String :=
  "<StandardTermsAddRq><StandardTermsAdd><Name>" ++ escape (pyStrip t.name)
    ++ "</Name><StdDueDays >" ++ toString t.discount_days
    ++ "</StdDueDays ></StandardTermsAdd></StandardTermsAddRq>"

/-- Spec-side document: one fragment per term, in input order, joined by
newlines inside a single envelope whose messages container carries
`onError="continueOnError"`. -/
def specBatchDocument (terms : List PaymentTerm) : String :=
  "<?xml version=\"1.0\" encoding=\"utf-8\"?>\n<?qbxml version=\"13.0\"?>\n<QBXML>\n<QBXMLMsgsRq onError=\"continueOnError\">\n"
    ++ joinNl (terms.map specFragment) ++ "\n" ++ "</QBXMLMsgsRq>\n</QBXML>"

/-! ### Helper lemmas -/

/-- A string append is nonempty whenever its left part is. -/
theorem append_ne_empty_left (a b : String) (h : a ≠ "") : a ++ b ≠ "" := by
  intro he
  apply h
  have hd : a.data ++ b.data = ([] : List Char) := congrArg String.data he
  have : a.data = [] := (List.append_eq_nil.mp hd).1
  cases a
  simp_all

/-- Spec fragments are never the empty string. -/
theorem specFragment_ne_empty (t : PaymentTerm) : specFragment t ≠ "" :=
  append_ne_empty_left _ _ (append_ne_empty_left _ _ (append_ne_empty_left _ _
    (append_ne_empty_left _ _ (by decide))))

/-- Joining a list headed by a nonempty string is nonempty. -/
theorem joinNl_cons_ne_empty (a : String) (l : List String) (h : a ≠ "") :
    joinNl (a :: l) ≠ "" := by
  cases l with
  | nil => exact h
  | cons b bs => exact append_ne_empty_left _ _ (append_ne_empty_left _ _ h)

/-- When no name strips to empty, the builder loop emits exactly the
spec-side fragment of each term, in input order. -/
theorem buildRequests_eq_map (terms : List PaymentTerm)
    (h : ∀ t ∈ terms, pyStrip t.name ≠ "") :
    buildRequests terms = terms.map specFragment := by
  induction terms with
  | nil => rfl
  | cons t ts ih =>
    have ht : pyStrip t.name ≠ "" := h t (List.mem_cons_self t ts)
    have hts : ∀ u ∈ ts, pyStrip u.name ≠ "" := fun u hu => h u (List.mem_cons_of_mem t hu)
    simp only [buildRequests, if_neg ht, List.map_cons, ih hts]
    rfl

/-! ### Claims -/

/-- C1: for every non-empty list of `PaymentTerm` entities, each with a
non-empty trimmed name (and an integer `discount_days`, enforced by the
type), `create_payment_terms_batch_qbxml` returns a single document equal,
byte for byte, to the spec-side document: exactly one `StandardTermsAddRq`
fragment per term, in input order, wrapped in one envelope carrying
`onError="continueOnError"`, each fragment writing the due-days element
with a trailing space before the closing `>` of both its opening and
closing tag. -/
theorem c1_batch_document_matches_spec (terms : List PaymentTerm)
    (hne : terms ≠ []) (h : ∀ t ∈ terms, pyStrip t.name ≠ "") :
    create_payment_terms_batch_qbxml terms = specBatchDocument terms := by
  obtain ⟨t, ts, rfl⟩ : ∃ t ts, terms = t :: ts := by
    cases terms with
    | nil => exact absurd rfl hne
    | cons t ts => exact ⟨t, ts, rfl⟩
  have hjoin : joinNl ((t :: ts).map specFragment) ≠ "" := by
    simpa only [List.map_cons] using
      joinNl_cons_ne_empty (specFragment t) (ts.map specFragment) (specFragment_ne_empty t)
  unfold create_payment_terms_batch_qbxml specBatchDocument
  rw [buildRequests_eq_map (t :: ts) h]
  simp only [if_neg hjoin]
  rfl

/-- Witness for C1 at the concrete list `[("Net 30", 30), ("Net 15", 15)]`. -/
theorem c1_witness :
    create_payment_terms_batch_qbxml
        [PaymentTerm.mk "Net 30" 30, PaymentTerm.mk "Net 15" 15]
      = specBatchDocument [PaymentTerm.mk "Net 30" 30, PaymentTerm.mk "Net 15" 15] :=
  c1_batch_document_matches_spec _ (by decide) (by decide)

/-- C2: on the input rows `[("Net 30", 30), ("", 15), ("Net 15", "ten")]`
the code does not silently drop the third row: because `"ten"` converts
neither by `int(...)` nor by `int(float(...))`, `read_payment_terms` raises
`TypeError` (line 87) instead of returning `[PaymentTerm("Net 30", 30)]`.
This contradicts the function's own docstring ("skip rows with invalid
data", "No exceptions need to be manually raised") — the claim is right
and the code is wrong. -/
theorem c2_code_raises_on_bad_days :
    read_payment_terms
        [(Cell.str "Net 30", Cell.int 30), (Cell.str "", Cell.int 15),
         (Cell.str "Net 15", Cell.str "ten")]
      = Except.error (ReadError.invalidDays "Net 15" (Cell.str "ten"))
    ∧ read_payment_terms
        [(Cell.str "Net 30", Cell.int 30), (Cell.str "", Cell.int 15),
         (Cell.str "Net 15", Cell.str "ten")]
      ≠ Except.ok [PaymentTerm.mk "Net 30" 30] := by
  have h1 : read_payment_terms
      [(Cell.str "Net 30", Cell.int 30), (Cell.str "", Cell.int 15),
       (Cell.str "Net 15", Cell.str "ten")]
    = Except.error (ReadError.invalidDays "Net 15" (Cell.str "ten")) := rfl
  refine ⟨h1, ?_⟩
  rw [h1]
  intro hcontra
  exact Except.noConfusion hcontra

/-- Created names of a reconciliation run, item by item: a status-`"0"` item
contributes its returned name (when present and nonempty), every other item
contributes nothing. -/
theorem reconcile_created (items : List RsItem) :
    (reconcile items).1 = items.filterMap (fun rs =>
      if rs.statusCode = some "0" then
        match rs.retName with
        | some n => if n = "" then Option.none else some n
        | Option.none => Option.none
      else Option.none) := by
  induction items with
  | nil => rfl
  | cons rs rest ih =>
    by_cases h0 : rs.statusCode = some "0"
    · cases hn : rs.retName with
      | none => simp [reconcile, h0, hn, ih]
      | some n =>
        by_cases hne : n = "" <;> simp [reconcile, h0, hn, hne, ih]
    · by_cases h31 : rs.statusCode = some "3100" <;> simp [reconcile, h0, h31, ih]

/-- Warnings of a reconciliation run, item by item: a status-`"0"` or
status-`"3100"` item warns nothing, every other item warns once with the
status and the message text. -/
theorem reconcile_warnings (items : List RsItem) :
    (reconcile items).2 = items.filterMap (fun rs =>
      if rs.statusCode = some "0" then Option.none
      else if rs.statusCode = some "3100" then Option.none
      else some (warnLine rs.statusCode rs.statusMessage)) := by
  induction items with
  | nil => rfl
  | cons rs rest ih =>
    by_cases h0 : rs.statusCode = some "0"
    · cases hn : rs.retName with
      | none => simp [reconcile, h0, hn, ih]
      | some n =>
        by_cases hne : n = "" <;> simp [reconcile, h0, hn, hne, ih]
    · by_cases h31 : rs.statusCode = some "3100" <;> simp [reconcile, h0, h31, ih]

/-- An all-success response reconciles to exactly its names, in response
order, with no warnings. -/
theorem reconcile_all_success (items : List RsItem)
    (h : ∀ rs ∈ items, rs.statusCode = some "0" ∧ rs.retName.getD "" ≠ "") :
    (reconcile items).1 = items.filterMap RsItem.retName
    ∧ (reconcile items).1.length = items.length
    ∧ (reconcile items).2 = [] := by
  induction items with
  | nil => exact ⟨rfl, rfl, rfl⟩
  | cons rs rest ih =>
    obtain ⟨h0, hgetd⟩ := h rs (List.mem_cons_self rs rest)
    have hrest := ih (fun u hu => h u (List.mem_cons_of_mem rs hu))
    cases hn : rs.retName with
    | none => rw [hn] at hgetd; exact absurd rfl hgetd
    | some n =>
      rw [hn] at hgetd
      have hne : n ≠ "" := hgetd
      refine ⟨?_, ?_, ?_⟩
      · simp [reconcile, h0, hn, hne, hrest.1]
      · simp [reconcile, h0, hn, hne, hrest.2.1]
      · simp [reconcile, h0, hn, hne, hrest.2.2]

/-- C3: the reconciliation step of `save_payment_terms_to_quickbooks` maps
per-item results of a parsed response as the spec says: a status-`"0"` item
appends its returned name to the output, in response order; a
status-`"3100"` item is omitted with no warning; any other item is omitted
and produces exactly one non-fatal warning line carrying the status and the
response's message text.  Consequently a response in which every item has
status `"0"` (and carries a name) yields a name list of the same length and
the same names as the response, in response order, with no warnings. -/
theorem c3_reconciliation (items : List RsItem) :
    ((reconcile items).1 = items.filterMap (fun rs =>
        if rs.statusCode = some "0" then
          match rs.retName with
          | some n => if n = "" then Option.none else some n
          | Option.none => Option.none
        else Option.none)
      ∧ (reconcile items).2 = items.filterMap (fun rs =>
        if rs.statusCode = some "0" then Option.none
        else if rs.statusCode = some "3100" then Option.none
        else some (warnLine rs.statusCode rs.statusMessage)))
    ∧ ((∀ rs ∈ items, rs.statusCode = some "0" ∧ rs.retName.getD "" ≠ "") →
        (reconcile items).1 = items.filterMap RsItem.retName
        ∧ (reconcile items).1.length = items.length
        ∧ (reconcile items).2 = []) :=
  ⟨⟨reconcile_created items, reconcile_warnings items⟩,
   fun h => reconcile_all_success items h⟩

/-- Witness for C3 at a concrete two-item all-success response. -/
theorem c3_witness :
    (reconcile [RsItem.mk (some "0") Option.none (some "Net 30"),
                RsItem.mk (some "0") Option.none (some "Net 15")]).1
      = List.filterMap RsItem.retName
          [RsItem.mk (some "0") Option.none (some "Net 30"),
           RsItem.mk (some "0") Option.none (some "Net 15")]
    ∧ (reconcile [RsItem.mk (some "0") Option.none (some "Net 30"),
                  RsItem.mk (some "0") Option.none (some "Net 15")]).1.length
      = ([RsItem.mk (some "0") Option.none (some "Net 30"),
          RsItem.mk (some "0") Option.none (some "Net 15")] : List RsItem).length
    ∧ (reconcile [RsItem.mk (some "0") Option.none (some "Net 30"),
                  RsItem.mk (some "0") Option.none (some "Net 15")]).2 = [] :=
  (c3_reconciliation _).2 (by decide)

/-- C4 counterexample: the response string `"garbage"` is not well-formed
XML (`ET.fromstring` raises on it, hence `parsed = none`), yet
`save_payment_terms_to_quickbooks` does not fail with a "response
unparseable" error: the fallback of lines 290-299 silently returns the
normal outcome `ok []` — the unparseable response is treated as zero
successful results. -/
theorem c4_counterexample :
    (save_payment_terms_to_quickbooks
        (QBEnv.mk (Except.ok ()) (Except.ok (ResponseDoc.mk "garbage" Option.none))
          (Except.ok ()) (Except.ok ()))
        [PaymentTerm.mk "Net 30" 30]).1
      = SaveOutcome.ok [] := by rfl

/-- C4 amended: when the response cannot be parsed as well-formed XML,
`save_payment_terms_to_quickbooks` raises nothing; it falls back to naive
substring extraction over the raw response (`fallbackExtract`: the texts
between `<Name>` and `</Name>` markers when `statusCode="0"` occurs in the
raw string, the empty list otherwise) and returns that normally. -/
theorem c4_fallback_behavior (env : QBEnv) (terms : List PaymentTerm) (raw : String)
    (hne : terms ≠ []) (hc : env.connect = Except.ok ())
    (hs : env.submit = Except.ok (ResponseDoc.mk raw Option.none)) :
    (save_payment_terms_to_quickbooks env terms).1
      = SaveOutcome.ok (fallbackExtract raw) := by
  obtain ⟨t, ts, rfl⟩ : ∃ t ts, terms = t :: ts := by
    cases terms with
    | nil => exact absurd rfl hne
    | cons t ts => exact ⟨t, ts, rfl⟩
  simp [save_payment_terms_to_quickbooks, hc, hs, cleanupBlock, withFinally]

/-- Witness for C4 at the concrete unparseable response `"<bad"`. -/
theorem c4_witness :
    (save_payment_terms_to_quickbooks
        (QBEnv.mk (Except.ok ()) (Except.ok (ResponseDoc.mk "<bad" Option.none))
          (Except.ok ()) (Except.ok ()))
        [PaymentTerm.mk "Net 30" 30]).1
      = SaveOutcome.ok (fallbackExtract "<bad") :=
  c4_fallback_behavior _ _ _ (by decide) rfl rfl

/-- C5 counterexample: with the connection acquired and `ProcessRequest`
raising (a pure submission failure), `save_payment_terms_to_quickbooks`
raises `RuntimeError("Failed to connect to QuickBooks: ...")` — the
submission failure is labeled as a connection failure, so the two kinds are
not distinguishable as the claim requires. -/
theorem c5_counterexample :
    (save_payment_terms_to_quickbooks
        (QBEnv.mk (Except.ok ()) (Except.error "ProcessRequest failed")
          (Except.ok ()) (Except.ok ()))
        [PaymentTerm.mk "Net 30" 30]).1
      = SaveOutcome.runtimeError "Failed to connect to QuickBooks: ProcessRequest failed" := by
  rfl

/-- C5 amended: connection-acquisition failure is re-signaled as
`RuntimeError("Failed to connect to QuickBooks: ...")`, but a submission
failure is wrapped with exactly the same label by the same handler
(line 325), so connection failures are not distinguishable from submission
failures; response-parse failures are not raised at all (see C4). -/
theorem c5_error_wrapping (env : QBEnv) (terms : List PaymentTerm) (e : String)
    (hne : terms ≠ []) :
    (env.connect = Except.error e →
      (save_payment_terms_to_quickbooks env terms).1
        = SaveOutcome.runtimeError ("Failed to connect to QuickBooks: " ++ e))
    ∧ (env.connect = Except.ok () → env.submit = Except.error e →
      (save_payment_terms_to_quickbooks env terms).1
        = SaveOutcome.runtimeError ("Failed to connect to QuickBooks: " ++ e)) := by
  obtain ⟨t, ts, rfl⟩ : ∃ t ts, terms = t :: ts := by
    cases terms with
    | nil => exact absurd rfl hne
    | cons t ts => exact ⟨t, ts, rfl⟩
  constructor
  · intro hc
    simp [save_payment_terms_to_quickbooks, hc, cleanupBlock, withFinally]
  · intro hc hs
    simp [save_payment_terms_to_quickbooks, hc, hs, cleanupBlock, withFinally]

/-- Witness for C5 at a concrete unreachable-service environment. -/
theorem c5_witness :
    (save_payment_terms_to_quickbooks
        (QBEnv.mk (Except.error "QuickBooks not running")
          (Except.ok (ResponseDoc.mk "" Option.none)) (Except.ok ()) (Except.ok ()))
        [PaymentTerm.mk "Net 30" 30]).1
      = SaveOutcome.runtimeError ("Failed to connect to QuickBooks: " ++ "QuickBooks not running") :=
  (c5_error_wrapping _ _ _ (by decide)).1 rfl

/-- Folding string append over singletons rebuilds the string: the list
form of `String.join` on singleton strings. -/
theorem foldl_append_singleton (l : List Char) (acc : String) :
    List.foldl (fun r s => r ++ s) acc (l.map String.singleton) = String.mk (acc.data ++ l) := by
  induction l generalizing acc with
  | nil => cases acc; simp
  | cons c cs ih =>
    simp only [List.map_cons, List.foldl_cons]
    rw [ih]
    have hd : (acc ++ String.singleton c).data = acc.data ++ [c] := rfl
    rw [hd]
    simp

/-- Joining the singleton strings of a character list gives the string of
that list. -/
theorem join_map_singleton (l : List Char) :
    String.join (l.map String.singleton) = String.mk l := by
  have := foldl_append_singleton l ""
  simpa [String.join] using this

/-- Strings free of `&`, `<` and `>` pass through `escape` unchanged — in
particular the double quote and the apostrophe are not escaped. -/
theorem escape_keeps_plain (s : String)
    (h : ∀ c ∈ s.data, c ≠ '&' ∧ c ≠ '<' ∧ c ≠ '>') : escape s = s := by
  unfold escape
  have hmap : s.toList.map escapeChar = s.toList.map String.singleton := by
    apply List.map_congr_left
    intro c hc
    obtain ⟨h1, h2, h3⟩ := h c hc
    simp [escapeChar, h1, h2, h3]
  rw [hmap, join_map_singleton]
  cases s
  rfl

set_option maxRecDepth 4000 in
/-- C6 counterexample: the name `A"B` contains one of the 5 standard XML
special characters (the double quote), yet the emitted document carries it
raw in the `Name` element — `&quot;` appears nowhere — because
`xml.sax.saxutils.escape` with no `entities` argument escapes only `&`,
`<` and `>`.  The claim that all 5 characters are escaped is false. -/
theorem c6_counterexample :
    create_payment_terms_batch_qbxml [PaymentTerm.mk "A\"B" 10]
      = "<?xml version=\"1.0\" encoding=\"utf-8\"?>\n<?qbxml version=\"13.0\"?>\n<QBXML>\n<QBXMLMsgsRq onError=\"continueOnError\">\n<StandardTermsAddRq><StandardTermsAdd><Name>A\"B</Name><StdDueDays >10</StdDueDays ></StandardTermsAdd></StandardTermsAddRq>\n</QBXMLMsgsRq>\n</QBXML>"
    ∧ listContains ("&quot;".toList)
        (create_payment_terms_batch_qbxml [PaymentTerm.mk "A\"B" 10]).toList = false := by
  constructor
  · rfl
  · decide

set_option maxRecDepth 4000 in
/-- C6 amended: `create_payment_terms_batch_qbxml` escapes `&`, `<` and `>`
in the emitted `Name` element (via `escape`), but leaves the double quote
and the apostrophe unchanged; in particular `PaymentTerm("A&B", 10)` yields
a document containing `<Name>A&amp;B</Name>` and
`<StdDueDays >10</StdDueDays >`. -/
theorem c6_escape_behavior :
    (∀ t : PaymentTerm, pyStrip t.name ≠ "" →
      create_payment_terms_batch_qbxml [t]
        = envelopeHeader ++ termFragment (escape (pyStrip t.name)) t.discount_days
            ++ "\n" ++ envelopeFooter)
    ∧ (∀ s : String, (∀ c ∈ s.data, c ≠ '&' ∧ c ≠ '<' ∧ c ≠ '>') → escape s = s)
    ∧ escape "A&B" = "A&amp;B"
    ∧ escape "A\"B'C" = "A\"B'C"
    ∧ create_payment_terms_batch_qbxml [PaymentTerm.mk "A&B" 10]
        = "<?xml version=\"1.0\" encoding=\"utf-8\"?>\n<?qbxml version=\"13.0\"?>\n<QBXML>\n<QBXMLMsgsRq onError=\"continueOnError\">\n<StandardTermsAddRq><StandardTermsAdd><Name>A&amp;B</Name><StdDueDays >10</StdDueDays ></StandardTermsAdd></StandardTermsAddRq>\n</QBXMLMsgsRq>\n</QBXML>" := by
  refine ⟨?_, escape_keeps_plain, rfl, rfl, rfl⟩
  intro t h
  have hfrag : termFragment (escape (pyStrip t.name)) t.discount_days ≠ "" :=
    specFragment_ne_empty t
  unfold create_payment_terms_batch_qbxml
  simp only [buildRequests, if_neg h, joinNl, if_neg hfrag]

/-- Witness for C6: a name free of `&`, `<`, `>` — with an apostrophe and
quotes — embeds verbatim. -/
theorem c6_witness :
    create_payment_terms_batch_qbxml [PaymentTerm.mk "Net 30" 30]
      = envelopeHeader ++ termFragment (escape (pyStrip "Net 30")) 30
          ++ "\n" ++ envelopeFooter
    ∧ escape "O'Brien \"Q\"" = "O'Brien \"Q\"" :=
  ⟨c6_escape_behavior.1 (PaymentTerm.mk "Net 30" 30) (by decide),
   c6_escape_behavior.2.1 "O'Brien \"Q\"" (by decide)⟩

/-- C7: once the connection and session are acquired (`connect` succeeded),
every exit path of `save_payment_terms_to_quickbooks` — normal return,
submission raising, response parsing raising — both ends the session and
closes the connection, and the run's outcome and trace are unchanged
whatever the cleanup calls do: a failure inside the cleanup never replaces
or masks the original result. -/
theorem c7_cleanup_always_runs (env : QBEnv) (terms : List PaymentTerm)
    (hne : terms ≠ []) (hc : env.connect = Except.ok ()) :
    ((save_payment_terms_to_quickbooks env terms).2.endSessionCalled = true
      ∧ (save_payment_terms_to_quickbooks env terms).2.closeConnectionCalled = true)
    ∧ (∀ es cc : Except String Unit,
        save_payment_terms_to_quickbooks (QBEnv.mk env.connect env.submit es cc) terms
          = save_payment_terms_to_quickbooks env terms) := by
  obtain ⟨t, ts, rfl⟩ : ∃ t ts, terms = t :: ts := by
    cases terms with
    | nil => exact absurd rfl hne
    | cons t ts => exact ⟨t, ts, rfl⟩
  constructor
  · constructor <;> simp [save_payment_terms_to_quickbooks, hc, cleanupBlock]
  · intro es cc
    simp [save_payment_terms_to_quickbooks, hc, cleanupBlock]

/-- Witness for C7: a concrete successful run, with cleanup also checked
against an environment whose `EndSession` and `CloseConnection` both
raise. -/
theorem c7_witness :
    ((save_payment_terms_to_quickbooks
        (QBEnv.mk (Except.ok ())
          (Except.ok (ResponseDoc.mk "r" (some [RsItem.mk (some "0") Option.none (some "Net 30")])))
          (Except.ok ()) (Except.ok ()))
        [PaymentTerm.mk "Net 30" 30]).2.endSessionCalled = true
      ∧ (save_payment_terms_to_quickbooks
        (QBEnv.mk (Except.ok ())
          (Except.ok (ResponseDoc.mk "r" (some [RsItem.mk (some "0") Option.none (some "Net 30")])))
          (Except.ok ()) (Except.ok ()))
        [PaymentTerm.mk "Net 30" 30]).2.closeConnectionCalled = true)
    ∧ save_payment_terms_to_quickbooks
        (QBEnv.mk (Except.ok ())
          (Except.ok (ResponseDoc.mk "r" (some [RsItem.mk (some "0") Option.none (some "Net 30")])))
          (Except.error "end boom") (Except.error "close boom"))
        [PaymentTerm.mk "Net 30" 30]
      = save_payment_terms_to_quickbooks
        (QBEnv.mk (Except.ok ())
          (Except.ok (ResponseDoc.mk "r" (some [RsItem.mk (some "0") Option.none (some "Net 30")])))
          (Except.ok ()) (Except.ok ()))
        [PaymentTerm.mk "Net 30" 30] :=
  ⟨(c7_cleanup_always_runs
      (QBEnv.mk (Except.ok ())
        (Except.ok (ResponseDoc.mk "r" (some [RsItem.mk (some "0") Option.none (some "Net 30")])))
        (Except.ok ()) (Except.ok ()))
      [PaymentTerm.mk "Net 30" 30] (by decide) rfl).1,
   (c7_cleanup_always_runs
      (QBEnv.mk (Except.ok ())
        (Except.ok (ResponseDoc.mk "r" (some [RsItem.mk (some "0") Option.none (some "Net 30")])))
        (Except.ok ()) (Except.ok ()))
      [PaymentTerm.mk "Net 30" 30] (by decide) rfl).2 (Except.error "end boom")
     (Except.error "close boom")⟩

/-- C8: whenever the spreadsheet rows validate to zero payment terms,
`process_payment_terms` raises the explicit
`ValueError("No payment terms found in the 'payment_terms' sheet.")` —
an error kind distinct from the downstream `RuntimeError` — with the
all-`false` trace: no document built, no connection attempted, nothing
submitted. -/
theorem c8_no_terms_error (env : QBEnv) (rows : List (Cell × Cell))
    (h : read_payment_terms rows = Except.ok []) :
    process_payment_terms env rows
      = (ProcOutcome.valueError "No payment terms found in the 'payment_terms' sheet.",
         SaveTrace.mk false false false false false []) := by
  unfold process_payment_terms
  rw [h]
  exact rfl

/-- Witness for C8 at the concrete empty row list. -/
theorem c8_witness :
    process_payment_terms
        (QBEnv.mk (Except.ok ()) (Except.ok (ResponseDoc.mk "" (some [])))
          (Except.ok ()) (Except.ok ()))
        []
      = (ProcOutcome.valueError "No payment terms found in the 'payment_terms' sheet.",
         SaveTrace.mk false false false false false []) :=
  c8_no_terms_error _ [] rfl

/-- A builder iteration leaves the entity unchanged. -/
theorem buildIter_snd (t : PaymentTerm) : (buildIter t).2 = t := by
  by_cases h : pyStrip t.name = "" <;> simp [buildIter, h]

/-- The fragments emitted by the tracked builder are those of the plain
builder loop. -/
theorem filterMap_fst_buildIter (terms : List PaymentTerm) :
    (terms.map buildIter).filterMap Prod.fst = buildRequests terms := by
  induction terms with
  | nil => rfl
  | cons t ts ih =>
    by_cases h : pyStrip t.name = "" <;> simp [buildIter, buildRequests, h, ih]

/-- Composition form of `filterMap_fst_buildIter`. -/
theorem filterMap_fst_buildIter_comp (terms : List PaymentTerm) :
    List.filterMap (Prod.fst ∘ buildIter) terms = buildRequests terms := by
  rw [← List.filterMap_map]
  exact filterMap_fst_buildIter terms

/-- C9: `create_payment_terms_batch_qbxml` never mutates its input — after
building, every entity (name and discount days) is exactly as before, the
tracked build produces the same document as the plain function, and
building twice from the same list yields the same output (no double
escaping), escaping being applied to a local copy at serialization time.
-/
theorem c9_no_mutation (terms : List PaymentTerm) :
    (create_payment_terms_batch_qbxml_tracked terms).2 = terms
    ∧ (create_payment_terms_batch_qbxml_tracked terms).1
        = create_payment_terms_batch_qbxml terms
    ∧ (create_payment_terms_batch_qbxml_tracked
         ((create_payment_terms_batch_qbxml_tracked terms).2)).1
        = (create_payment_terms_batch_qbxml_tracked terms).1 := by
  have hsnd : (terms.map buildIter).map Prod.snd = terms := by
    induction terms with
    | nil => rfl
    | cons t ts ih => simp [buildIter_snd, ih]
  have h2 : (create_payment_terms_batch_qbxml_tracked terms).2 = terms := by
    simp [create_payment_terms_batch_qbxml_tracked, hsnd]
  have h1 : (create_payment_terms_batch_qbxml_tracked terms).1
      = create_payment_terms_batch_qbxml terms := by
    simp [create_payment_terms_batch_qbxml_tracked, create_payment_terms_batch_qbxml,
      filterMap_fst_buildIter_comp]
  exact ⟨h2, h1, by rw [h2]⟩

/-- C10: on the empty input list, `save_payment_terms_to_quickbooks`
returns the empty list immediately (line 274): no document is built, no
connection is attempted, nothing is submitted, and no cleanup call is made,
whatever the external service would have answered. -/
theorem c10_empty_input_noop (env : QBEnv) :
    save_payment_terms_to_quickbooks env []
      = (SaveOutcome.ok [], SaveTrace.mk false false false false false []) := rfl

end ExcelProcessor
